import Mathlib

/-!
Shallow embedding of the mmap_alloc character-device driver
(src/mmap_alloc.c) and verification of its specification claims.

The driver allocates a physically contiguous buffer at module load
(`mmap_alloc_init`), seeds it with a 0xDEAD/0xBEEF word pattern, and lets
user space mmap it (`mmap_mmap` delegating to `mmap_kmem`).  Host-kernel
primitives (kmalloc, dma_map_single, alloc_chrdev_region, cdev_add,
virt_to_phys, remap_pfn_range) are modelled as an oracle environment `Env`;
the driver functions are translated line by line from the C source.
Machine words are `Nat` with explicit `% 2^w` where overflow matters.
-/

namespace MmapAlloc

/-- NPAGES from the source: number of usable pages. -/
def NPAGES : Nat := 16

/-- PAGE_SHIFT on the modelled platform (4096-byte pages). -/
def PAGE_SHIFT : Nat := 12

/-- PAGE_SIZE = 2 ^ PAGE_SHIFT = 4096. -/
def PAGE_SIZE : Nat := 2 ^ PAGE_SHIFT

/-- Modulus of the unsigned long machine word. -/
def WORD64 : Nat := 2 ^ 64

/-- Modulus of a 32-bit int cell of the buffer. -/
def WORD32 : Nat := 2 ^ 32

/-- PAGE_MASK = ~(PAGE_SIZE - 1) read as an unsigned 64-bit word. -/
def PAGE_MASK : Nat := WORD64 - PAGE_SIZE

/-- Magnitude of the kernel error code EIO (the code returns its negation). -/
def eioErr : Int := 5

/-- Magnitude of the kernel error code ENOMEM (the code returns its negation). -/
def enomemErr : Int := 12

/-- Linux VM_IO vma flag bit. -/
def VM_IO : Nat := 0x00004000

/-- Page-protection attribute record of a mapping request.  The `cached`
bit is the one `pgprot_noncached` would clear; `bits` stands for the other
protection bits, which the driver never inspects. -/
structure PgProt where
  cached : Bool
  bits : Nat
deriving DecidableEq, Repr

/-- Host transformation producing a non-cached protection value. -/
def pgprot_noncached (p : PgProt) : PgProt := { p with cached := false }

/-- The vm_area_struct fields the driver reads: user range, page offset,
protection and flags. -/
structure VmArea where
  vm_start : Nat
  vm_end : Nat
  vm_pgoff : Nat
  vm_page_prot : PgProt
  vm_flags : Nat
deriving DecidableEq, Repr

/-- Argument record of one remap_pfn_range invocation, capturing the vma
flags in force at call time plus the four value arguments. -/
structure RemapCall where
  vma_flags : Nat
  addr : Nat
  pfn : Nat
  size : Nat
  prot : PgProt
deriving DecidableEq, Repr

/-- Oracle environment supplying the outcomes of every host-kernel
primitive the driver calls: the linear virtual-to-physical translation,
the remap primitive's return code, and the results of the four fallible
init-time calls. -/
structure Env where
  virt_to_phys : Nat → Nat
  remap_result : RemapCall → Int
  kmalloc_result : Option Nat
  dma_map_result : Nat
  chrdev_result : Int
  cdev_add_result : Int

/-- Arguments `mmap_kmem` hands to remap_pfn_range: the user start address,
the pfn of the buffer obtained via `virt_to_phys (alloc_area) >> PAGE_SHIFT`,
the requested length, and the request's own `vm_page_prot`, with the vma
flags left untouched. -/
def remapArgs (env : Env) (alloc_area : Nat) (vma : VmArea) : RemapCall :=
  { vma_flags := vma.vm_flags
    addr := vma.vm_start
    pfn := env.virt_to_phys alloc_area >>> PAGE_SHIFT
    size := vma.vm_end - vma.vm_start
    prot := vma.vm_page_prot }

/-- Translation of `mmap_kmem` (src/mmap_alloc.c lines 60-81): reject a
window larger than NPAGES * PAGE_SIZE with -EIO before any installation
call, otherwise invoke the remap primitive once and return its error code
on failure or 0 on success.  The second component records the remap
invocation, `none` when the primitive was never called. -/
def mmap_kmem (env : Env) (alloc_area : Nat) (vma : VmArea) :
    Int × Option RemapCall :=
  let length := vma.vm_end - vma.vm_start
  if NPAGES * PAGE_SIZE < length then (-eioErr, none)
  else
    let call := remapArgs env alloc_area vma
    let ret := env.remap_result call
    if ret < 0 then (ret, some call) else (0, some call)

/-- Rounding of `alloc_ptr` to the next page boundary, exactly as the C
computes it on unsigned long: `(p + PAGE_SIZE - 1) & PAGE_MASK`. -/
def roundUpPage (p : Nat) : Nat := ((p + PAGE_SIZE - 1) % WORD64) &&& PAGE_MASK

/-- Value stored by `alloc_area[i] = (0xdead << 16) + i`, as a 32-bit cell. -/
def deadWord (i : Nat) : Nat := ((0xdead <<< 16) + i) % WORD32

/-- Value stored by `alloc_area[i + 1] = (0xbeef << 16) + i`, as a 32-bit cell. -/
def beefWord (i : Nat) : Nat := ((0xbeef <<< 16) + i) % WORD32

/-- One iteration of the seeding loop with loop counter i = 2 * k: store
`deadWord` at index 2k and `beefWord` at index 2k + 1. -/
def seedStep (m : Nat → Nat) (k : Nat) : Nat → Nat :=
  Function.update (Function.update m (2 * k) (deadWord (2 * k)))
    (2 * k + 1) (beefWord (2 * k))

/-- The seeding loop of `mmap_alloc_init` (lines 146-149): for
i = 0, 2, 4, ... below NPAGES * PAGE_SIZE / sizeof(int), write the pattern
pair; its NPAGES * PAGE_SIZE / 4 / 2 iterations are folded in order. -/
def seedLoop (m : Nat → Nat) : Nat → Nat :=
  (List.range (NPAGES * PAGE_SIZE / 4 / 2)).foldl seedStep m

/-- Page base addresses touched by the reserve loop of init (lines
140-142) and, identically, by the unreserve loop of exit (lines 171-173):
`alloc_area + i` for i = 0, PAGE_SIZE, ..., (NPAGES-1) * PAGE_SIZE. -/
def reservedPages (alloc_area : Nat) : List Nat :=
  (List.range NPAGES).map fun i => alloc_area + i * PAGE_SIZE

/-- Host resources held after an init or exit run: the kmalloc block (with
its unrounded address), the chrdev region, the cdev registration, and the
pages currently marked reserved. -/
structure SysState where
  alloc_held : Option Nat
  region_held : Bool
  cdev_held : Bool
  reserved : List Nat
deriving DecidableEq, Repr

/-- State in which every resource has been released (or never acquired). -/
def cleanState : SysState := ⟨none, false, false, []⟩

/-- Outcome of one run of `mmap_alloc_init`: return value, resources held
afterwards, the 32-bit word contents of memory (indexed from alloc_area),
and on success the pair (alloc_ptr, alloc_area). -/
structure InitResult where
  ret : Int
  st : SysState
  words : Nat → Nat
  handle : Option (Nat × Nat)

/-- Translation of `mmap_alloc_init` (src/mmap_alloc.c lines 91-159).
kmalloc failure returns -ENOMEM with nothing held; dma_map_single
returning 0 frees the block and returns -ENOMEM; the block address is then
rounded up to a page boundary into `alloc_area`; alloc_chrdev_region
failure frees the block and returns that error; cdev_add failure
unregisters the region, frees the block and returns that error; on success
the NPAGES pages are marked reserved, the pattern is seeded and the
cdev_add return value (0) is returned. -/
def mmap_alloc_init (env : Env) (mem0 : Nat → Nat) : InitResult :=
  match env.kmalloc_result with
  | none => ⟨-enomemErr, cleanState, mem0, none⟩
  | some alloc_ptr =>
    if env.dma_map_result = 0 then
      ⟨-enomemErr, cleanState, mem0, none⟩
    else
      let alloc_area := roundUpPage alloc_ptr
      if env.chrdev_result < 0 then
        ⟨env.chrdev_result, cleanState, mem0, none⟩
      else if env.cdev_add_result < 0 then
        ⟨env.cdev_add_result, cleanState, mem0, none⟩
      else
        ⟨env.cdev_add_result,
         ⟨some alloc_ptr, true, true, reservedPages alloc_area⟩,
         seedLoop mem0,
         some (alloc_ptr, alloc_area)⟩

/-- Release actions performed by one run of `mmap_alloc_exit`. -/
structure ExitTrace where
  cdev_deleted : Bool
  region_unregistered : Bool
  cleared : List Nat
  freed : Option Nat
deriving DecidableEq, Repr

/-- Translation of `mmap_alloc_exit` (src/mmap_alloc.c lines 162-176):
unconditionally delete the cdev, unregister the region, clear the reserved
mark on the NPAGES pages from `alloc_area`, and kfree `alloc_ptr`. -/
def mmap_alloc_exit (alloc_ptr alloc_area : Nat) : ExitTrace :=
  { cdev_deleted := true
    region_unregistered := true
    cleared := reservedPages alloc_area
    freed := some alloc_ptr }

/-- The pfn argument of the remap call a mapping request produces, `none`
when the request is rejected before the primitive is invoked. -/
def pfnArg (env : Env) (alloc_area : Nat) (vma : VmArea) : Option Nat :=
  (mmap_kmem env alloc_area vma).2.map RemapCall.pfn

/-- All-zero initial memory, used to instantiate witnesses. -/
def memZero : Nat → Nat := fun _ => 0

/-- Environment in which every host primitive succeeds: identity
virtual-to-physical translation, remap returning 0, kmalloc returning
address 0, a nonzero dma handle, and successful chrdev/cdev calls. -/
def envOk : Env :=
  { virt_to_phys := id
    remap_result := fun _ => 0
    kmalloc_result := some 0
    dma_map_result := 1
    chrdev_result := 0
    cdev_add_result := 0 }

/-- Masking a 64-bit value with PAGE_MASK clears its low PAGE_SHIFT bits. -/
lemma land_page_mask (x : Nat) (hx : x < WORD64) :
    x &&& PAGE_MASK = x / PAGE_SIZE * PAGE_SIZE := by
  have hw : WORD64 = 2 ^ 64 := rfl
  have hp : PAGE_SIZE = 2 ^ 12 := rfl
  have hm : PAGE_MASK = 2 ^ 64 - 2 ^ 12 := rfl
  rw [hp, hm]
  rw [hw] at hx
  have hmask : (2 : Nat) ^ 64 - 2 ^ 12 = (2 ^ 52 - 1) <<< 12 := by
    norm_num [Nat.shiftLeft_eq]
  have hr : x / 2 ^ 12 * 2 ^ 12 = (x >>> 12) <<< 12 := by
    rw [Nat.shiftRight_eq_div_pow, Nat.shiftLeft_eq]
  rw [hmask, hr]
  apply Nat.eq_of_testBit_eq
  intro i
  rw [Nat.testBit_and, Nat.testBit_shiftLeft, Nat.testBit_shiftLeft,
    Nat.testBit_shiftRight, Nat.testBit_two_pow_sub_one]
  by_cases h12 : 12 ≤ i
  · by_cases h64 : i < 64
    · have h52 : i - 12 < 52 := by omega
      have hadd : 12 + (i - 12) = i := by omega
      simp [h12, h52, hadd]
    · have hge : 2 ^ 64 ≤ 2 ^ i := Nat.pow_le_pow_right (by norm_num) (by omega)
      have hxi : x.testBit i = false := Nat.testBit_lt_two_pow (lt_of_lt_of_le hx hge)
      have h52 : ¬ (i - 12 < 52) := by omega
      have hadd : 12 + (i - 12) = i := by omega
      simp [h12, h52, hadd, hxi]
  · simp [h12]

/-- Without 64-bit overflow, the page rounding computes the round-up
division by PAGE_SIZE. -/
lemma roundUpPage_eq (p : Nat) (h : p + PAGE_SIZE ≤ WORD64) :
    roundUpPage p = (p + (PAGE_SIZE - 1)) / PAGE_SIZE * PAGE_SIZE := by
  have hpos : 0 < PAGE_SIZE := by norm_num [PAGE_SIZE]
  have h1 : p + PAGE_SIZE - 1 < WORD64 := by omega
  have h2 : p + PAGE_SIZE - 1 = p + (PAGE_SIZE - 1) := by omega
  rw [roundUpPage, Nat.mod_eq_of_lt h1, land_page_mask _ h1, h2]

/-- Partial seeding runs leave the pattern at every index below twice the
iteration count. -/
lemma seedFold_spec (n : Nat) (m : Nat → Nat) (j : Nat) (hj : j < 2 * n) :
    (List.range n).foldl seedStep m j =
      if j % 2 = 0 then deadWord j else beefWord (j - 1) := by
  induction n generalizing j with
  | zero => omega
  | succ n ih =>
    rw [List.range_succ, List.foldl_append, List.foldl_cons, List.foldl_nil]
    rcases Nat.lt_or_ge j (2 * n) with h | h
    · have h1 : j ≠ 2 * n + 1 := by omega
      have h2 : j ≠ 2 * n := by omega
      rw [seedStep, Function.update_noteq h1, Function.update_noteq h2]
      exact ih j h
    · rcases Nat.eq_or_lt_of_le h with he | hlt
      · have h1 : j ≠ 2 * n + 1 := by omega
        rw [seedStep, Function.update_noteq h1, ← he, Function.update_same]
        have heven : j % 2 = 0 := by omega
        simp [heven]
      · have he : j = 2 * n + 1 := by omega
        rw [seedStep, he, Function.update_same]
        have hodd : (2 * n + 1) % 2 ≠ 0 := by omega
        simp [hodd]

/-- The full seeding loop leaves the pattern at every word index of the
usable window. -/
lemma seedLoop_spec (m : Nat → Nat) (j : Nat) (hj : j < NPAGES * PAGE_SIZE / 4) :
    seedLoop m j = if j % 2 = 0 then deadWord j else beefWord (j - 1) := by
  have hn : 2 * (NPAGES * PAGE_SIZE / 4 / 2) = NPAGES * PAGE_SIZE / 4 := by
    norm_num [NPAGES, PAGE_SIZE, PAGE_SHIFT]
  exact seedFold_spec _ m j (by omega)

/-- Even dead words carry the 0xDEAD tag with the index in the low half. -/
lemma deadWord_eq (i : Nat) (hi : i < 16384) :
    deadWord i = 0xDEAD0000 ||| (i &&& 0xFFFF) := by
  have h16 : i < 2 ^ 16 := by
    have : (2 : Nat) ^ 16 = 65536 := by norm_num
    omega
  have hand : i &&& 0xFFFF = i := by
    have h : (0xFFFF : Nat) = 2 ^ 16 - 1 := by norm_num
    rw [h, Nat.and_pow_two_sub_one_of_lt_two_pow h16]
  have hor : (0xDEAD0000 : Nat) ||| i = 2 ^ 16 * 0xdead + i := by
    have h : (0xDEAD0000 : Nat) = 2 ^ 16 * 0xdead := by norm_num
    rw [h, ← Nat.mul_add_lt_is_or h16]
  have hsh : (0xdead : Nat) <<< 16 = 2 ^ 16 * 0xdead := by
    rw [Nat.shiftLeft_eq, Nat.mul_comm]
  have hlt : 2 ^ 16 * 0xdead + i < 2 ^ 32 := by
    have h1 : (2 : Nat) ^ 16 = 65536 := by norm_num
    have h2 : (2 : Nat) ^ 32 = 4294967296 := by norm_num
    omega
  rw [deadWord, WORD32, hand, hor, hsh, Nat.mod_eq_of_lt hlt]

/-- Odd beef words carry the 0xBEEF tag with the even index in the low half. -/
lemma beefWord_eq (i : Nat) (hi : i < 16384) :
    beefWord i = 0xBEEF0000 ||| (i &&& 0xFFFF) := by
  have h16 : i < 2 ^ 16 := by
    have : (2 : Nat) ^ 16 = 65536 := by norm_num
    omega
  have hand : i &&& 0xFFFF = i := by
    have h : (0xFFFF : Nat) = 2 ^ 16 - 1 := by norm_num
    rw [h, Nat.and_pow_two_sub_one_of_lt_two_pow h16]
  have hor : (0xBEEF0000 : Nat) ||| i = 2 ^ 16 * 0xbeef + i := by
    have h : (0xBEEF0000 : Nat) = 2 ^ 16 * 0xbeef := by norm_num
    rw [h, ← Nat.mul_add_lt_is_or h16]
  have hsh : (0xbeef : Nat) <<< 16 = 2 ^ 16 * 0xbeef := by
    rw [Nat.shiftLeft_eq, Nat.mul_comm]
  have hlt : 2 ^ 16 * 0xbeef + i < 2 ^ 32 := by
    have h1 : (2 : Nat) ^ 16 = 65536 := by norm_num
    have h2 : (2 : Nat) ^ 32 = 4294967296 := by norm_num
    omega
  rw [beefWord, WORD32, hand, hor, hsh, Nat.mod_eq_of_lt hlt]

/-- A successful init run is fully characterized: every fallible primitive
succeeded, the handle holds the raw and rounded addresses, and the result
carries the seeded memory with all resources held. -/
lemma init_success (env : Env) (m : Nat → Nat) (r k : Nat)
    (hs : (mmap_alloc_init env m).handle = some (r, k)) :
    env.kmalloc_result = some r ∧ env.dma_map_result ≠ 0 ∧
    ¬ env.chrdev_result < 0 ∧ ¬ env.cdev_add_result < 0 ∧
    k = roundUpPage r ∧
    mmap_alloc_init env m =
      ⟨env.cdev_add_result, ⟨some r, true, true, reservedPages k⟩,
       seedLoop m, some (r, k)⟩ := by
  rcases hk : env.kmalloc_result with _ | p
  · simp [mmap_alloc_init, hk] at hs
  · by_cases hd : env.dma_map_result = 0
    · simp [mmap_alloc_init, hk, hd] at hs
    · by_cases hc : env.chrdev_result < 0
      · simp [mmap_alloc_init, hk, hd, hc] at hs
      · by_cases ha : env.cdev_add_result < 0
        · simp [mmap_alloc_init, hk, hd, hc, ha] at hs
        · have he : mmap_alloc_init env m =
              ⟨env.cdev_add_result,
               ⟨some p, true, true, reservedPages (roundUpPage p)⟩,
               seedLoop m, some (p, roundUpPage p)⟩ := by
            simp [mmap_alloc_init, hk, hd, hc, ha]
          rw [he] at hs
          simp at hs
          obtain ⟨h1, h2⟩ := hs
          subst h1
          subst h2
          exact ⟨rfl, hd, hc, ha, rfl, he⟩

/-- Map request for the full usable window at page offset 0, with cached
protection and no flags. -/
def vmaFull : VmArea :=
  { vm_start := 0, vm_end := NPAGES * PAGE_SIZE, vm_pgoff := 0
    vm_page_prot := ⟨true, 0⟩, vm_flags := 0 }

/-- Map request one byte larger than the usable window. -/
def vmaBig : VmArea :=
  { vm_start := 0, vm_end := NPAGES * PAGE_SIZE + 1, vm_pgoff := 0
    vm_page_prot := ⟨true, 0⟩, vm_flags := 0 }

/-- Claim C1: after a successful module init, for every even word index i
in [0, NPAGES * PAGE_SIZE / 4), the seeded window holds
0xDEAD0000 ||| (i &&& 0xFFFF) at index i and 0xBEEF0000 ||| (i &&& 0xFFFF)
at index i + 1; the kernel's additive writes (0xdead << 16) + i and
(0xbeef << 16) + i produce exactly these values because i < 2^16 and the
addition never carries into the tag bits. -/
theorem C1_pattern_integrity (env : Env) (m : Nat → Nat) (r k i : Nat)
    (hs : (mmap_alloc_init env m).handle = some (r, k))
    (hi : i % 2 = 0) (hlt : i < NPAGES * PAGE_SIZE / 4) :
    (mmap_alloc_init env m).words i = 0xDEAD0000 ||| (i &&& 0xFFFF) ∧
    (mmap_alloc_init env m).words (i + 1) = 0xBEEF0000 ||| (i &&& 0xFFFF) := by
  obtain ⟨-, -, -, -, -, he⟩ := init_success env m r k hs
  rw [he]
  have h4 : NPAGES * PAGE_SIZE / 4 = 16384 := by
    norm_num [NPAGES, PAGE_SIZE, PAGE_SHIFT]
  rw [h4] at hlt
  dsimp only
  constructor
  · rw [seedLoop_spec m i (by rw [h4]; omega), if_pos hi, deadWord_eq i hlt]
  · have hodd : (i + 1) % 2 ≠ 0 := by omega
    rw [seedLoop_spec m (i + 1) (by rw [h4]; omega), if_neg hodd]
    simp only [Nat.add_sub_cancel]
    exact beefWord_eq i hlt

/-- Witness for the C1 theorem: successful init in envOk, index 0. -/
theorem C1_pattern_integrity_witness :
    (mmap_alloc_init envOk memZero).handle = some (0, 0) ∧
    (0 : Nat) % 2 = 0 ∧ (0 : Nat) < NPAGES * PAGE_SIZE / 4 ∧
    ((mmap_alloc_init envOk memZero).words 0 = 0xDEAD0000 ||| (0 &&& 0xFFFF) ∧
     (mmap_alloc_init envOk memZero).words (0 + 1) =
       0xBEEF0000 ||| (0 &&& 0xFFFF)) :=
  ⟨by decide, rfl, by decide,
   C1_pattern_integrity envOk memZero 0 0 0 (by decide) rfl (by decide)⟩

/-- Claim C2: a map request whose window exceeds NPAGES * PAGE_SIZE bytes
fails with -EIO before any installation primitive is called, while a
window of exactly NPAGES * PAGE_SIZE bytes passes the size check and
reaches the remap call. -/
theorem C2_size_check (env : Env) (aa : Nat) (v1 v2 : VmArea)
    (h1 : NPAGES * PAGE_SIZE < v1.vm_end - v1.vm_start)
    (h2 : v2.vm_end - v2.vm_start = NPAGES * PAGE_SIZE) :
    mmap_kmem env aa v1 = (-eioErr, none) ∧
    (mmap_kmem env aa v2).2 = some (remapArgs env aa v2) := by
  constructor
  · simp [mmap_kmem, h1]
  · by_cases hr : env.remap_result (remapArgs env aa v2) < 0 <;>
      simp [mmap_kmem, h2, hr]

/-- Witness for the C2 theorem: the oversize request vmaBig is rejected,
the exact-size request vmaFull reaches remap. -/
theorem C2_size_check_witness :
    NPAGES * PAGE_SIZE < vmaBig.vm_end - vmaBig.vm_start ∧
    vmaFull.vm_end - vmaFull.vm_start = NPAGES * PAGE_SIZE ∧
    (mmap_kmem envOk 0 vmaBig = (-eioErr, none) ∧
     (mmap_kmem envOk 0 vmaFull).2 = some (remapArgs envOk 0 vmaFull)) :=
  ⟨by decide, by decide,
   C2_size_check envOk 0 vmaBig vmaFull (by decide) (by decide)⟩

/-- The protection argument of the installed remap call, when one is made. -/
def protArg (env : Env) (alloc_area : Nat) (vma : VmArea) : Option PgProt :=
  (mmap_kmem env alloc_area vma).2.map RemapCall.prot

/-- The vma flags in force when the remap call is made, when one is made. -/
def flagsArg (env : Env) (alloc_area : Nat) (vma : VmArea) : Option Nat :=
  (mmap_kmem env alloc_area vma).2.map RemapCall.vma_flags

/-- Map request for one page at page offset 1 into the buffer. -/
def vmaOff1 : VmArea :=
  { vm_start := 0, vm_end := PAGE_SIZE, vm_pgoff := 1
    vm_page_prot := ⟨true, 0⟩, vm_flags := 0 }

/-- Map request for one page with explicitly cached protection bits. -/
def vmaCached : VmArea :=
  { vm_start := 0, vm_end := PAGE_SIZE, vm_pgoff := 0
    vm_page_prot := ⟨true, 5⟩, vm_flags := 0 }

/-- A request accepted by the size check always reaches the remap call
with exactly the arguments of remapArgs. -/
lemma mmap_kmem_call (env : Env) (aa : Nat) (vma : VmArea) (c : RemapCall)
    (hc : (mmap_kmem env aa vma).2 = some c) :
    c = remapArgs env aa vma ∧
    vma.vm_end - vma.vm_start ≤ NPAGES * PAGE_SIZE := by
  by_cases h : NPAGES * PAGE_SIZE < vma.vm_end - vma.vm_start
  · simp [mmap_kmem, h] at hc
  · refine ⟨?_, Nat.not_lt.mp h⟩
    by_cases hr : env.remap_result (remapArgs env aa vma) < 0 <;>
      simp [mmap_kmem, h, hr] at hc <;> exact hc.symm

/-- Counterexample to claim C3 as stated: for the one-page request at page
offset 1, the pfn handed to the remap primitive is the buffer's first
frame, not PFN(pa) + page_offset. -/
theorem C3_remap_offset_counterexample :
    pfnArg envOk 0 vmaOff1 ≠
      some (envOk.virt_to_phys 0 >>> PAGE_SHIFT + vmaOff1.vm_pgoff) := by
  decide

/-- Amended claim C3: for every map request passing the size check, the
starting pfn passed to the remap primitive is PFN(pa) alone — the
request's page offset is ignored and the installed mapping always begins
at the buffer's first frame. -/
theorem C3_remap_offset_amended (env : Env) (aa : Nat) (vma : VmArea)
    (h : vma.vm_end - vma.vm_start ≤ NPAGES * PAGE_SIZE) :
    pfnArg env aa vma = some (env.virt_to_phys aa >>> PAGE_SHIFT) := by
  by_cases hr : env.remap_result (remapArgs env aa vma) < 0 <;>
    simp [pfnArg, mmap_kmem, Nat.not_lt.mpr h, hr] <;> simp [remapArgs]

/-- Witness for the amended C3 theorem at the offset-1 request. -/
theorem C3_remap_offset_amended_witness :
    vmaOff1.vm_end - vmaOff1.vm_start ≤ NPAGES * PAGE_SIZE ∧
    pfnArg envOk 0 vmaOff1 = some (envOk.virt_to_phys 0 >>> PAGE_SHIFT) :=
  ⟨by decide, C3_remap_offset_amended envOk 0 vmaOff1 (by decide)⟩

/-- Counterexample to claim C4 as stated: for the cached one-page request,
the remap call receives the request's protection bits unchanged — not the
non-cached version — and the vma flags at call time contain no VM_IO bit. -/
theorem C4_noncached_counterexample :
    protArg envOk 0 vmaCached ≠
      some (pgprot_noncached vmaCached.vm_page_prot) ∧
    flagsArg envOk 0 vmaCached = some 0 ∧ 0 &&& VM_IO = 0 := by
  refine ⟨by decide, by decide, by decide⟩

/-- Amended claim C4: the Mapping Service does not modify the request's
attributes on the remap path — the page-protection bits handed to the
primitive are the request's own vm_page_prot, and the vma flags are passed
through unchanged, so the mapping is non-cached only if the caller's
protection already was. -/
theorem C4_noncached_amended (env : Env) (aa : Nat) (vma : VmArea)
    (h : vma.vm_end - vma.vm_start ≤ NPAGES * PAGE_SIZE) :
    protArg env aa vma = some vma.vm_page_prot ∧
    flagsArg env aa vma = some vma.vm_flags := by
  by_cases hr : env.remap_result (remapArgs env aa vma) < 0 <;>
    constructor <;>
      simp [protArg, flagsArg, mmap_kmem, Nat.not_lt.mpr h, hr] <;>
        simp [remapArgs]

/-- Witness for the amended C4 theorem at the cached request. -/
theorem C4_noncached_amended_witness :
    vmaCached.vm_end - vmaCached.vm_start ≤ NPAGES * PAGE_SIZE ∧
    (protArg envOk 0 vmaCached = some vmaCached.vm_page_prot ∧
     flagsArg envOk 0 vmaCached = some vmaCached.vm_flags) :=
  ⟨by decide, C4_noncached_amended envOk 0 vmaCached (by decide)⟩

/-- Claim C5: when the remap primitive reports failure, mmap_kmem returns
that exact error code unchanged. -/
theorem C5_error_propagation (env : Env) (aa : Nat) (vma : VmArea)
    (h : vma.vm_end - vma.vm_start ≤ NPAGES * PAGE_SIZE)
    (he : env.remap_result (remapArgs env aa vma) < 0) :
    (mmap_kmem env aa vma).1 = env.remap_result (remapArgs env aa vma) := by
  simp [mmap_kmem, Nat.not_lt.mpr h, he]

/-- Environment whose remap primitive always fails with -EINVAL (-22). -/
def envRemapFail : Env :=
  { envOk with remap_result := fun _ => -22 }

/-- Witness for the C5 theorem: the -22 remap failure is surfaced as -22. -/
theorem C5_error_propagation_witness :
    vmaFull.vm_end - vmaFull.vm_start ≤ NPAGES * PAGE_SIZE ∧
    envRemapFail.remap_result (remapArgs envRemapFail 0 vmaFull) < 0 ∧
    (mmap_kmem envRemapFail 0 vmaFull).1 =
      envRemapFail.remap_result (remapArgs envRemapFail 0 vmaFull) :=
  ⟨by decide, by decide,
   C5_error_propagation envRemapFail 0 vmaFull (by decide) (by decide)⟩

/-- Claim C6: init is atomic on failure.  A kmalloc failure returns
-ENOMEM with nothing held; a DMA-map failure frees the allocation and
returns -ENOMEM; a chrdev-region failure frees the allocation before
returning its error; a cdev_add failure unregisters the region and frees
the allocation before returning its error; and whenever the device (cdev)
is registered after init, init returned success (a nonnegative code). -/
theorem C6_init_unwind (e1 e2 e3 e4 e5 : Env) (m : Nat → Nat) (r2 r3 r4 : Nat)
    (h1 : e1.kmalloc_result = none)
    (h2k : e2.kmalloc_result = some r2) (h2d : e2.dma_map_result = 0)
    (h3k : e3.kmalloc_result = some r3) (h3d : e3.dma_map_result ≠ 0)
    (h3c : e3.chrdev_result < 0)
    (h4k : e4.kmalloc_result = some r4) (h4d : e4.dma_map_result ≠ 0)
    (h4c : ¬ e4.chrdev_result < 0) (h4a : e4.cdev_add_result < 0)
    (h5 : (mmap_alloc_init e5 m).st.cdev_held = true) :
    mmap_alloc_init e1 m = ⟨-enomemErr, cleanState, m, none⟩ ∧
    mmap_alloc_init e2 m = ⟨-enomemErr, cleanState, m, none⟩ ∧
    mmap_alloc_init e3 m = ⟨e3.chrdev_result, cleanState, m, none⟩ ∧
    mmap_alloc_init e4 m = ⟨e4.cdev_add_result, cleanState, m, none⟩ ∧
    0 ≤ (mmap_alloc_init e5 m).ret := by
  refine ⟨by simp [mmap_alloc_init, h1],
    by simp [mmap_alloc_init, h2k, h2d],
    by simp [mmap_alloc_init, h3k, h3d, h3c],
    by simp [mmap_alloc_init, h4k, h4d, h4c, h4a], ?_⟩
  rcases hk : e5.kmalloc_result with _ | p
  · simp [mmap_alloc_init, hk, cleanState] at h5
  · by_cases hd : e5.dma_map_result = 0
    · simp [mmap_alloc_init, hk, hd, cleanState] at h5
    · by_cases hc : e5.chrdev_result < 0
      · simp [mmap_alloc_init, hk, hd, hc, cleanState] at h5
      · by_cases ha : e5.cdev_add_result < 0
        · simp [mmap_alloc_init, hk, hd, hc, ha, cleanState] at h5
        · simp [mmap_alloc_init, hk, hd, hc, ha]
          omega

/-- Environment whose kmalloc fails. -/
def envKmallocFail : Env := { envOk with kmalloc_result := none }

/-- Environment whose dma_map_single returns the failure value 0. -/
def envDmaFail : Env := { envOk with dma_map_result := 0 }

/-- Environment whose alloc_chrdev_region fails with -ENOMEM. -/
def envChrdevFail : Env := { envOk with chrdev_result := -12 }

/-- Environment whose cdev_add fails with -EBUSY. -/
def envCdevFail : Env := { envOk with cdev_add_result := -16 }

/-- Witness for the C6 theorem at the four failing environments and the
all-success environment. -/
theorem C6_init_unwind_witness :
    envKmallocFail.kmalloc_result = none ∧
    envDmaFail.kmalloc_result = some 0 ∧ envDmaFail.dma_map_result = 0 ∧
    envChrdevFail.kmalloc_result = some 0 ∧
    envChrdevFail.dma_map_result ≠ 0 ∧ envChrdevFail.chrdev_result < 0 ∧
    envCdevFail.kmalloc_result = some 0 ∧ envCdevFail.dma_map_result ≠ 0 ∧
    ¬ envCdevFail.chrdev_result < 0 ∧ envCdevFail.cdev_add_result < 0 ∧
    (mmap_alloc_init envOk memZero).st.cdev_held = true ∧
    (mmap_alloc_init envKmallocFail memZero =
        ⟨-enomemErr, cleanState, memZero, none⟩ ∧
     mmap_alloc_init envDmaFail memZero =
        ⟨-enomemErr, cleanState, memZero, none⟩ ∧
     mmap_alloc_init envChrdevFail memZero =
        ⟨envChrdevFail.chrdev_result, cleanState, memZero, none⟩ ∧
     mmap_alloc_init envCdevFail memZero =
        ⟨envCdevFail.cdev_add_result, cleanState, memZero, none⟩ ∧
     0 ≤ (mmap_alloc_init envOk memZero).ret) :=
  ⟨rfl, rfl, rfl, rfl, by decide, by decide, rfl, by decide, by decide,
   by decide, by decide,
   C6_init_unwind envKmallocFail envDmaFail envChrdevFail envCdevFail envOk
     memZero 0 0 0 rfl rfl rfl rfl (by decide) (by decide) rfl (by decide)
     (by decide) (by decide) (by decide)⟩

/-- Claim C7: the rounded address is page-aligned, at least the raw
address, and less than raw + PAGE_SIZE (hence the smallest page-aligned
address at or above raw); the usable length NPAGES * PAGE_SIZE is at most
the allocated length (NPAGES + 2) * PAGE_SIZE, and the usable window
[kva, kva + NPAGES * PAGE_SIZE) lies inside the allocated range
[raw, raw + (NPAGES + 2) * PAGE_SIZE). -/
theorem C7_alignment (raw : Nat) (h : raw + PAGE_SIZE ≤ WORD64) :
    raw ≤ roundUpPage raw ∧
    roundUpPage raw % PAGE_SIZE = 0 ∧
    roundUpPage raw < raw + PAGE_SIZE ∧
    NPAGES * PAGE_SIZE ≤ (NPAGES + 2) * PAGE_SIZE ∧
    roundUpPage raw + NPAGES * PAGE_SIZE ≤ raw + (NPAGES + 2) * PAGE_SIZE := by
  rw [roundUpPage_eq raw h]
  have hp : PAGE_SIZE = 4096 := by norm_num [PAGE_SIZE, PAGE_SHIFT]
  have hn : NPAGES = 16 := rfl
  rw [hp, hn]
  omega

/-- Witness for the C7 theorem at the unaligned raw address 1. -/
theorem C7_alignment_witness :
    1 + PAGE_SIZE ≤ WORD64 ∧
    (1 ≤ roundUpPage 1 ∧
     roundUpPage 1 % PAGE_SIZE = 0 ∧
     roundUpPage 1 < 1 + PAGE_SIZE ∧
     NPAGES * PAGE_SIZE ≤ (NPAGES + 2) * PAGE_SIZE ∧
     roundUpPage 1 + NPAGES * PAGE_SIZE ≤ 1 + (NPAGES + 2) * PAGE_SIZE) :=
  ⟨by decide, C7_alignment 1 (by decide)⟩

/-- Claim C8: after a successful init, module exit releases symmetrically
and unconditionally: it clears the reserved mark on exactly the pages init
reserved — the NPAGES pages inside [kva, kva + NPAGES * PAGE_SIZE) — then
frees the original unrounded pointer, and deletes the cdev and region. -/
theorem C8_exit_release (env : Env) (m : Nat → Nat) (r k : Nat)
    (hs : (mmap_alloc_init env m).handle = some (r, k)) :
    (mmap_alloc_exit r k).cleared = (mmap_alloc_init env m).st.reserved ∧
    (mmap_alloc_exit r k).freed = some r ∧
    (mmap_alloc_exit r k).cdev_deleted = true ∧
    (mmap_alloc_exit r k).region_unregistered = true ∧
    (mmap_alloc_exit r k).cleared.length = NPAGES ∧
    (mmap_alloc_exit r k).cleared.all
      (fun p => decide (k ≤ p) &&
        decide (p + PAGE_SIZE ≤ k + NPAGES * PAGE_SIZE)) = true := by
  obtain ⟨-, -, -, -, -, he⟩ := init_success env m r k hs
  rw [he]
  refine ⟨rfl, rfl, rfl, rfl, by simp [mmap_alloc_exit, reservedPages], ?_⟩
  simp only [mmap_alloc_exit, reservedPages, List.all_eq_true, List.mem_map,
    List.mem_range, Bool.and_eq_true, decide_eq_true_eq]
  rintro x ⟨i, hi, rfl⟩
  have hp : PAGE_SIZE = 4096 := by norm_num [PAGE_SIZE, PAGE_SHIFT]
  have hn : NPAGES = 16 := rfl
  rw [hn] at hi
  rw [hp, hn]
  omega

/-- Witness for the C8 theorem after the successful envOk init. -/
theorem C8_exit_release_witness :
    (mmap_alloc_init envOk memZero).handle = some (0, 0) ∧
    ((mmap_alloc_exit 0 0).cleared = (mmap_alloc_init envOk memZero).st.reserved ∧
     (mmap_alloc_exit 0 0).freed = some 0 ∧
     (mmap_alloc_exit 0 0).cdev_deleted = true ∧
     (mmap_alloc_exit 0 0).region_unregistered = true ∧
     (mmap_alloc_exit 0 0).cleared.length = NPAGES ∧
     (mmap_alloc_exit 0 0).cleared.all
       (fun p => decide ((0 : Nat) ≤ p) &&
         decide (p + PAGE_SIZE ≤ 0 + NPAGES * PAGE_SIZE)) = true) :=
  ⟨by decide, C8_exit_release envOk memZero 0 0 (by decide)⟩

/-- Environment identical to envOk except that dma_map_single returns the
bus address 0x100000. -/
def envDmaLarge : Env := { envOk with dma_map_result := 0x100000 }

/-- Counterexample to claim C9 as stated: with the DMA primitive returning
bus address 0x100000, init succeeds, yet the pfn handed to the remap
primitive is not derived from that returned address — it comes from
virt_to_phys of the buffer instead. -/
theorem C9_dma_pa_counterexample :
    (mmap_alloc_init envDmaLarge memZero).handle = some (0, 0) ∧
    pfnArg envDmaLarge 0 vmaFull ≠
      some (envDmaLarge.dma_map_result >>> PAGE_SHIFT) := by
  refine ⟨by decide, by decide⟩

/-- Amended claim C9: the bus address returned by the streaming DMA-map
primitive is only compared against 0 and then discarded — init behaves
identically for any two nonzero returned values — and the pfn from which
the mapping is installed is derived from virt_to_phys(alloc_area), not
from the DMA-returned address. -/
theorem C9_dma_pa_amended (env : Env) (m : Nat → Nat) (aa d d' : Nat)
    (vma : VmArea) (hd : d ≠ 0) (hd' : d' ≠ 0)
    (h : vma.vm_end - vma.vm_start ≤ NPAGES * PAGE_SIZE) :
    mmap_alloc_init { env with dma_map_result := d } m =
      mmap_alloc_init { env with dma_map_result := d' } m ∧
    pfnArg env aa vma = some (env.virt_to_phys aa >>> PAGE_SHIFT) := by
  constructor
  · rcases hk : env.kmalloc_result with _ | p
    · simp [mmap_alloc_init, hk]
    · simp [mmap_alloc_init, hk, hd, hd']
  · by_cases hr : env.remap_result (remapArgs env aa vma) < 0 <;>
      simp [pfnArg, mmap_kmem, Nat.not_lt.mpr h, hr] <;> simp [remapArgs]

/-- Witness for the amended C9 theorem with nonzero DMA values 1 and 2. -/
theorem C9_dma_pa_amended_witness :
    (1 : Nat) ≠ 0 ∧ (2 : Nat) ≠ 0 ∧
    vmaFull.vm_end - vmaFull.vm_start ≤ NPAGES * PAGE_SIZE ∧
    (mmap_alloc_init { envOk with dma_map_result := 1 } memZero =
       mmap_alloc_init { envOk with dma_map_result := 2 } memZero ∧
     pfnArg envOk 0 vmaFull = some (envOk.virt_to_phys 0 >>> PAGE_SHIFT)) :=
  ⟨by decide, by decide, by decide,
   C9_dma_pa_amended envOk memZero 0 1 2 vmaFull (by decide) (by decide)
     (by decide)⟩

/-- Claim C10: every map request accepted by the size check hands the
remap primitive a physical range that starts exactly at the buffer's first
physical frame and spans the requested window, hence stays inside the
buffer's usable physical window of NPAGES * PAGE_SIZE bytes — regardless
of the request's page offset. -/
theorem C10_phys_window (env : Env) (aa : Nat) (vma : VmArea) (c : RemapCall)
    (hc : (mmap_kmem env aa vma).2 = some c)
    (halign : env.virt_to_phys aa % PAGE_SIZE = 0) :
    c.pfn * PAGE_SIZE = env.virt_to_phys aa ∧
    c.size = vma.vm_end - vma.vm_start ∧
    c.pfn * PAGE_SIZE + c.size ≤ env.virt_to_phys aa + NPAGES * PAGE_SIZE := by
  obtain ⟨hceq, hle⟩ := mmap_kmem_call env aa vma c hc
  subst hceq
  have hpfn : (remapArgs env aa vma).pfn = env.virt_to_phys aa / PAGE_SIZE := by
    simp [remapArgs, Nat.shiftRight_eq_div_pow, PAGE_SIZE]
  have hsz : (remapArgs env aa vma).size = vma.vm_end - vma.vm_start := rfl
  have hdvd : env.virt_to_phys aa / PAGE_SIZE * PAGE_SIZE = env.virt_to_phys aa :=
    Nat.div_mul_cancel (Nat.dvd_of_mod_eq_zero halign)
  rw [hpfn, hsz, hdvd]
  exact ⟨rfl, rfl, Nat.add_le_add_left hle _⟩

/-- Witness for the C10 theorem at the full-window request in envOk. -/
theorem C10_phys_window_witness :
    (mmap_kmem envOk 0 vmaFull).2 = some (remapArgs envOk 0 vmaFull) ∧
    envOk.virt_to_phys 0 % PAGE_SIZE = 0 ∧
    ((remapArgs envOk 0 vmaFull).pfn * PAGE_SIZE = envOk.virt_to_phys 0 ∧
     (remapArgs envOk 0 vmaFull).size = vmaFull.vm_end - vmaFull.vm_start ∧
     (remapArgs envOk 0 vmaFull).pfn * PAGE_SIZE + (remapArgs envOk 0 vmaFull).size ≤
       envOk.virt_to_phys 0 + NPAGES * PAGE_SIZE) :=
  ⟨by decide, by decide,
   C10_phys_window envOk 0 vmaFull (remapArgs envOk 0 vmaFull) (by decide)
     (by decide)⟩

end MmapAlloc
